import Mathlib

/-!
Verification of the engine-provisioning layer of SafeGuardians/guardian-engine.

Shallow embedding of
`src/guardian-analyzer/guardian_analyzer/nlp_engine/nlp_engine_provider.py`
(class `NlpEngineProvider`): configuration resolution in `__init__`,
registry construction, and `create_engine()`.

Python-specific behaviour is modelled explicitly:
- dict truthiness (`not self.nlp_configuration` is true for an empty dict),
- `dict.get` returning `None` both for an absent key and for a key stored
  with value `None` (hence the `Option (Option _)` fields of `NlpConf`),
- the `try ... except KeyError` block of `create_engine`,
- `ValueError` messages exactly as in the source.

Logging calls (`logger.debug/info/warning`) are observability-only per the
spec and are not modelled.
-/

/-- Python runtime errors, as far as this layer can raise or observe them.
`otherError kind msg` stands for an arbitrary further exception class (used
for load-phase failures originating in external engine code). -/
inductive PyError where
  | valueError (msg : String)
  | keyError (msg : String)
  | attributeError (msg : String)
  | otherError (kind : String) (msg : String)

deriving instance DecidableEq for PyError

/-- A `{lang_code, model_name}` mapping from the `models` list. -/
structure ModelSpec where
  lang_code : String
  model_name : String

deriving instance DecidableEq for ModelSpec

/-- The raw `ner_model_configuration` sub-object: a YAML mapping, opaque to
this layer (its schema is owned by the external NER-model-configuration
collaborator). Python dict truthiness: the empty mapping is falsy. -/
abbrev NerDict := List (String × String)

/-- Modelled from the spec: `NerModelConfiguration` (imported by the source
from `guardian_analyzer.nlp_engine`, not part of src/). The spec says the
sub-object is parsed into a structured NER-model-configuration entity via
`from_dict`; its internal schema is an external concern, so the entity just
wraps the parsed mapping. -/
structure NerModelConfiguration where
  raw : NerDict

deriving instance DecidableEq for NerModelConfiguration

/-- The parse entry point `NerModelConfiguration.from_dict` used at line 93
of the source. -/
def NerModelConfiguration.from_dict (d : NerDict) : NerModelConfiguration :=
  { raw := d }

/-- The configuration dict, restricted to its three recognized keys.
Outer `Option`: is the key present in the dict? Inner `Option`: does the key
hold an actual value or Python `None`? Dicts with only unrecognized keys are
not modelled; that changes no observable behaviour of the provider (such a
dict is truthy but fails the same `models`/`nlp_engine_name` check as a
falsy one). -/
structure NlpConf where
  nlp_engine_name : Option (Option String)
  models : Option (Option (List ModelSpec))
  ner_model_configuration : Option (Option NerDict)

deriving instance DecidableEq for NlpConf

/-- Python truthiness of the configuration dict: nonempty. -/
def NlpConf.truthy (c : NlpConf) : Bool :=
  c.nlp_engine_name.isSome || c.models.isSome || c.ner_model_configuration.isSome

/-- Python `self.nlp_configuration.get("nlp_engine_name")`: `None` for an
absent key or a `None` value. -/
def NlpConf.get_engine_name (c : NlpConf) : Option String :=
  c.nlp_engine_name.bind id

/-- Python `self.nlp_configuration.get("models")`. -/
def NlpConf.get_models (c : NlpConf) : Option (List ModelSpec) :=
  c.models.bind id

/-- Python `self.nlp_configuration.get("ner_model_configuration")`. -/
def NlpConf.get_ner (c : NlpConf) : Option NerDict :=
  c.ner_model_configuration.bind id

/-- Python truthiness of a `.get` result holding a string
(`None` and `""` are falsy). -/
def optStrTruthy : Option String → Bool
  | Option.none => false
  | some s => !s.isEmpty

/-- Python truthiness of a `.get` result holding a list
(`None` and `[]` are falsy). -/
def optListTruthy {α : Type} : Option (List α) → Bool
  | Option.none => false
  | some l => !l.isEmpty

/-- The runtime value bound to `ner_model_configuration` when the engine
constructor is called (source lines 89-98): Python `None`, the raw falsy
mapping left unparsed, or the parsed `NerModelConfiguration`. -/
inductive NerArg where
  | none
  | raw (d : NerDict)
  | parsed (c : NerModelConfiguration)

deriving instance DecidableEq for NerArg

/-- A constructed engine instance, as far as this layer observes it: its
`engine_name`, the arguments its constructor received, and what `load()`
does (`none` = returns normally, `some e` = raises `e`). The post-load
`engine.nlp.keys()` summary is only logged and is not modelled. -/
structure EngineInstance where
  engine_name : String
  models : List ModelSpec
  ner_model_configuration : NerArg
  load_error : Option PyError

deriving instance DecidableEq for EngineInstance

deriving instance DecidableEq for Except

/-- Modelled from the spec: the candidate-engine interface (spec section 6;
the concrete classes `SpacyNlpEngine`, `StanzaNlpEngine`,
`TransformersNlpEngine` are imported by the source and are not part of
src/). Class-level `engine_name` and `is_available`, and calling the class
(`nlp_engine_class(models=..., ner_model_configuration=...)`) which may
raise or return an instance. -/
structure EngineClass where
  engine_name : String
  is_available : Bool
  construct : List ModelSpec → NerArg → Except PyError EngineInstance

/-- Lookup in an insertion-ordered dict (first matching key). -/
def dictGet {α : Type} (d : List (String × α)) (k : String) : Option α :=
  match d with
  | [] => Option.none
  | (k2, v) :: rest => if k2 == k then some v else dictGet rest k

/-- Assignment `d[k] = v` in an insertion-ordered Python dict: replace in
place if the key exists, else append. -/
def dictInsert {α : Type} (d : List (String × α)) (k : String) (v : α) :
    List (String × α) :=
  match d with
  | [] => [(k, v)]
  | (k2, v2) :: rest =>
    if k2 == k then (k2, v) :: rest else (k2, v2) :: dictInsert rest k v

/-- Source lines 44-46: the dict comprehension
`{engine.engine_name: engine for engine in nlp_engines if engine.is_available}`. -/
def buildRegistry (engines : List EngineClass) : List (String × EngineClass) :=
  engines.foldl
    (fun d e => if e.is_available then dictInsert d e.engine_name e else d) []

/-- Source lines 41-42: `if not nlp_engines: nlp_engines = (SpacyNlpEngine,
StanzaNlpEngine, TransformersNlpEngine)`. The built-in tuple is the
`builtin` parameter (its members live outside src/). An empty supplied
tuple is falsy and is replaced exactly like `None`. -/
def resolveEngineList (builtin : List EngineClass) :
    Option (List EngineClass) → List EngineClass
  | Option.none => builtin
  | some es => if es.isEmpty then builtin else es

/-- The hard-coded default configuration substituted by `_read_nlp_conf`
when the file does not exist (source lines 114-117). -/
def default_nlp_configuration : NlpConf :=
  { nlp_engine_name := some (some "spacy")
    models := some (some [{ lang_code := "en", model_name := "en_core_web_lg" }])
    ner_model_configuration := Option.none }

/-- A configuration file argument: a path that exists (with the mapping its
YAML content parses to) or a path that does not exist. Path truthiness
follows Python string truthiness (only `""` is falsy; note `Path("")` is
`"."`, which exists, so a nonexistent path is always nonempty). -/
inductive ConfFile where
  | missing (path : String)
  | present (path : String) (content : NlpConf)

deriving instance DecidableEq for ConfFile

/-- The path of a configuration file argument. -/
def ConfFile.path : ConfFile → String
  | .missing p => p
  | .present p _ => p

/-- Static method `_read_nlp_conf` (source lines 109-132): substitute the hard-coded
default when the path does not exist, else the parsed YAML mapping. The
two `logger.warning` diagnostics are not modelled. -/
def read_nlp_conf : ConfFile → NlpConf
  | .missing _ => default_nlp_configuration
  | .present _ c => c

/-- Provider state after `__init__`: the availability-filtered registry and
the resolved configuration. `nlp_configuration = none` models the attribute
never having been assigned (reachable only through falsy-but-not-`None`
constructor arguments). -/
structure NlpEngineProvider where
  nlp_engines : List (String × EngineClass)
  nlp_configuration : Option NlpConf

/-- Source lines 52-54. -/
def conflicting_sources_msg : String :=
  "Either conf_file or nlp_configuration should be provided, not both."

/-- Source lines 74-78 (the three concatenated literals). -/
def illegal_conf_msg : String :=
  "Illegal nlp configuration. Configuration should include nlp_engine_name and models (list of model_name for each lang_code)."

/-- Source lines 81-84 (f-string, with the two literals concatenated). -/
def unknown_engine_msg (name : String) : String :=
  "NLP engine \x27" ++ name ++ "\x27 is not available. Make sure you have all required packages installed"

/-- Source line 107. -/
def wrong_conf_msg : String :=
  "Wrong NLP engine configuration"

/-- Constructor `NlpEngineProvider.__init__` (source lines 35-65). Parameters:
`builtin_engines` stands for the default tuple `(SpacyNlpEngine,
StanzaNlpEngine, TransformersNlpEngine)`; `nlp_engines`, `conf_file` and
`nlp_configuration` are the Python keyword arguments (`none` = omitted /
`None`); `default_path_file` stands for the file-system entry at the
conventional default path `Path(Path(__file__).parent.parent, "conf",
"default.yaml")` computed by `_get_full_conf_path`. -/
def providerInit (builtin_engines : List EngineClass)
    (nlp_engines : Option (List EngineClass))
    (conf_file : Option ConfFile)
    (nlp_configuration : Option NlpConf)
    (default_path_file : ConfFile) : Except PyError NlpEngineProvider :=
  let engines := resolveEngineList builtin_engines nlp_engines
  let registry := buildRegistry engines
  let cf_truthy : Bool :=
    match conf_file with
    | Option.none => false
    | some cf => !cf.path.isEmpty
  let nc_truthy : Bool :=
    match nlp_configuration with
    | Option.none => false
    | some c => c.truthy
  if cf_truthy && nc_truthy then
    Except.error (PyError.valueError conflicting_sources_msg)
  else
    let cfg1 : Option NlpConf :=
      if nc_truthy then nlp_configuration else Option.none
    let cfg2 : Option NlpConf :=
      match conf_file with
      | some cf => if !cf.path.isEmpty then some (read_nlp_conf cf) else cfg1
      | Option.none => cfg1
    let cfg3 : Option NlpConf :=
      match conf_file, nlp_configuration with
      | Option.none, Option.none => some (read_nlp_conf default_path_file)
      | _, _ => cfg2
    Except.ok { nlp_engines := registry, nlp_configuration := cfg3 }

/-- Source lines 89-95: `.get("ner_model_configuration")`, parsed through
`NerModelConfiguration.from_dict` only when truthy, left as-is otherwise. -/
def nerArgOf (conf : NlpConf) : NerArg :=
  match conf.get_ner with
  | Option.none => NerArg.none
  | some d =>
    if d.isEmpty then NerArg.raw d
    else NerArg.parsed (NerModelConfiguration.from_dict d)

/-- Method `NlpEngineProvider.create_engine` (source lines 67-107). -/
def create_engine (self : NlpEngineProvider) : Except PyError EngineInstance :=
  match self.nlp_configuration with
  | Option.none =>
    -- accessing the never-assigned attribute raises AttributeError
    Except.error (PyError.attributeError
      "\x27NlpEngineProvider\x27 object has no attribute \x27nlp_configuration\x27")
  | some conf =>
    -- lines 69-78: `not conf or not conf.get("models") or not conf.get("nlp_engine_name")`
    if !(conf.truthy && optListTruthy conf.get_models
        && optStrTruthy conf.get_engine_name) then
      Except.error (PyError.valueError illegal_conf_msg)
    else
      -- line 79: `conf["nlp_engine_name"]` (KeyError outside the try block
      -- if absent; unreachable, the guard above requires a truthy value)
      match conf.nlp_engine_name with
      | Option.none => Except.error (PyError.keyError "nlp_engine_name")
      | some nameVal =>
        -- f-string rendering of the name in the error message
        let nameStr : String :=
          match nameVal with
          | some s => s
          | Option.none => "None"
        -- lines 80-84: membership test (a `None` name is never a key)
        let found : Option EngineClass :=
          nameVal.bind (fun s => dictGet self.nlp_engines s)
        if found.isNone then
          Except.error (PyError.valueError (unknown_engine_msg nameStr))
        else
          -- lines 85-105: the try block
          let tryResult : Except PyError EngineInstance :=
            match found with
            | Option.none => Except.error (PyError.keyError nameStr)
            | some cls =>
              -- line 87: `conf["models"]` (KeyError inside the try block if
              -- absent; unreachable, the guard requires a truthy value)
              match conf.models with
              | some (some ms) =>
                match cls.construct ms (nerArgOf conf) with
                | Except.error e => Except.error e
                | Except.ok engine =>
                  -- line 100: `engine.load()`, failures propagate into the try
                  match engine.load_error with
                  | some e => Except.error e
                  | Option.none => Except.ok engine
              | _ => Except.error (PyError.keyError "models")
          -- lines 106-107: `except KeyError: raise ValueError(...)`
          match tryResult with
          | Except.error (PyError.keyError _) =>
            Except.error (PyError.valueError wrong_conf_msg)
          | r => r

/-- An always-available engine class whose instances record the constructor
arguments and whose `load()` succeeds. -/
def mkOkEngine (name : String) : EngineClass :=
  { engine_name := name
    is_available := true
    construct := fun ms ner => Except.ok
      { engine_name := name, models := ms, ner_model_configuration := ner
        load_error := Option.none } }

/-- An always-available engine class whose `load()` raises `e`. -/
def mkLoadFailEngine (name : String) (e : PyError) : EngineClass :=
  { engine_name := name
    is_available := true
    construct := fun ms ner => Except.ok
      { engine_name := name, models := ms, ner_model_configuration := ner
        load_error := some e } }

/-- An unavailable engine class. -/
def mkUnavailableEngine (name : String) : EngineClass :=
  { engine_name := name
    is_available := false
    construct := fun ms ner => Except.ok
      { engine_name := name, models := ms, ner_model_configuration := ner
        load_error := Option.none } }

/-- The example model spec from the source docstring. -/
def modelEn : ModelSpec :=
  { lang_code := "en", model_name := "en_core_web_lg" }

/-- A minimal valid configuration naming `name`. -/
def validConf (name : String) : NlpConf :=
  { nlp_engine_name := some (some name)
    models := some (some [modelEn])
    ner_model_configuration := Option.none }

/-- The empty dict `{}` as a configuration (falsy). -/
def emptyNlpConf : NlpConf :=
  { nlp_engine_name := Option.none
    models := Option.none
    ner_model_configuration := Option.none }

/-- A truthy configuration naming engine `"foo"` with an empty models list. -/
def confFoo : NlpConf :=
  { nlp_engine_name := some (some "foo")
    models := some (some [])
    ner_model_configuration := Option.none }

/-- A valid configuration whose `ner_model_configuration` key is present but
holds the empty mapping `{}` (falsy). -/
def confNerEmpty : NlpConf :=
  { nlp_engine_name := some (some "spacy")
    models := some (some [modelEn])
    ner_model_configuration := some (some []) }

/-- A valid configuration whose `ner_model_configuration` key holds a
non-empty mapping. -/
def confNerFull : NlpConf :=
  { nlp_engine_name := some (some "spacy")
    models := some (some [modelEn])
    ner_model_configuration := some (some [("model_to_presidio_entity_mapping", "default")]) }

/-- An always-available engine class whose constructor itself raises a
`KeyError` (an internal mapping miss during assembly). -/
def keyErrorCtorEngine : EngineClass :=
  { engine_name := "spacy"
    is_available := true
    construct := fun _ _ => Except.error (PyError.keyError "sub_config") }

/-- A stand-in for the built-in default engine tuple: spacy available,
stanza and transformers not installed. -/
def sampleBuiltins : List EngineClass :=
  [mkOkEngine "spacy", mkUnavailableEngine "stanza",
    mkUnavailableEngine "transformers"]

/-- A provider state with registry `reg` and resolved configuration `c`. -/
def providerWith (reg : List (String × EngineClass)) (c : NlpConf) :
    NlpEngineProvider :=
  { nlp_engines := reg, nlp_configuration := some c }

/-! ## Helper lemmas -/

theorem str_isEmpty_false {s : String} (h : s ≠ "") : s.isEmpty = false := by
  cases hs : s.isEmpty
  · rfl
  · exact absurd (String.isEmpty_iff s |>.mp hs) h

theorem list_isEmpty_false {α : Type} {l : List α} (h : l ≠ []) :
    l.isEmpty = false := by
  cases l with
  | nil => exact absurd rfl h
  | cons a t => rfl

theorem dictGet_dictInsert {α : Type} (d : List (String × α)) (k : String)
    (v : α) (n : String) :
    dictGet (dictInsert d k v) n = if k == n then some v else dictGet d n := by
  induction d with
  | nil => simp [dictInsert, dictGet]
  | cons hd tl ih =>
    obtain ⟨k2, v2⟩ := hd
    by_cases h2 : k2 = k
    · subst h2
      simp [dictInsert, dictGet]
      by_cases hn : k2 = n <;> simp [hn, dictGet]
    · have hb : (k2 == k) = false := by simp [h2]
      by_cases hn : k2 = n
      · subst hn
        have hkn : (k == k2) = false := by
          simp only [beq_eq_false_iff_ne, ne_eq]
          exact fun hc => h2 hc.symm
        simp [dictInsert, hb, dictGet, hkn]
      · have hb2 : (k2 == n) = false := by simp [hn]
        simp [dictInsert, hb, dictGet, hb2, ih]

theorem getLast?_cons_eq {α : Type} (a : α) (l : List α) :
    (a :: l).getLast? =
      match l.getLast? with
      | some x => some x
      | Option.none => some a := by
  induction l generalizing a with
  | nil => rfl
  | cons b t ih =>
    rw [List.getLast?_cons_cons, ih b]
    cases h : t.getLast? <;> simp

theorem registry_lookup_aux (es : List EngineClass)
    (d : List (String × EngineClass)) (n : String) :
    dictGet (es.foldl
      (fun d e => if e.is_available then dictInsert d e.engine_name e else d) d) n =
      match (es.filter fun e => e.is_available && e.engine_name == n).getLast? with
      | some e => some e
      | Option.none => dictGet d n := by
  induction es generalizing d with
  | nil => rfl
  | cons e es ih =>
    simp only [List.foldl_cons, List.filter_cons]
    rw [ih]
    cases hav : e.is_available with
    | false => simp
    | true =>
      rw [if_pos (Eq.refl true)]
      simp only [Bool.true_and]
      cases hnm : (e.engine_name == n) with
      | true =>
        rw [if_pos (Eq.refl true)]
        rw [getLast?_cons_eq]
        cases h : (es.filter fun e => e.is_available && e.engine_name == n).getLast? with
        | some x => rfl
        | none => rw [dictGet_dictInsert, if_pos hnm]
      | false =>
        rw [if_neg (show ¬(false = true) from by decide)]
        cases h : (es.filter fun e => e.is_available && e.engine_name == n).getLast? with
        | some x => rfl
        | none => rw [dictGet_dictInsert, if_neg (by simp [hnm])]

theorem buildRegistry_lookup (es : List EngineClass) (n : String) :
    dictGet (buildRegistry es) n =
      (es.filter fun e => e.is_available && e.engine_name == n).getLast? := by
  rw [buildRegistry, registry_lookup_aux]
  cases h : (es.filter fun e => e.is_available && e.engine_name == n).getLast? <;>
    rfl

/-! ## Claim C2 -/

/-- Claim C2 (counterexample): a provider constructed with the inline
configuration `{}` — an absent (empty, falsy) configuration. Line 56's
`if nlp_configuration:` is false for `{}` and line 62's
`nlp_configuration is None` is also false, so `self.nlp_configuration` is
never assigned (first conjunct: the resolved configuration is `none`,
the never-assigned state). `create_engine()` then raises `AttributeError`
at line 70 when it reads the missing attribute (second conjunct), not the
`InvalidConfiguration` error the claim requires (third conjunct). -/
theorem invalid_configuration_not_raised_for_unset_attribute :
    providerInit [] Option.none Option.none (some emptyNlpConf)
        (ConfFile.missing "default.yaml")
      = Except.ok { nlp_engines := [], nlp_configuration := Option.none } ∧
    create_engine { nlp_engines := [], nlp_configuration := Option.none }
      = Except.error (PyError.attributeError
          "\x27NlpEngineProvider\x27 object has no attribute \x27nlp_configuration\x27") ∧
    PyError.attributeError
        "\x27NlpEngineProvider\x27 object has no attribute \x27nlp_configuration\x27"
      ≠ PyError.valueError illegal_conf_msg :=
  ⟨rfl, rfl, by decide⟩

/-- Claim C2 (corrected, amended): for every provider whose resolved
configuration has been assigned but is empty (falsy) or lacks a non-empty
`models` list or lacks a non-empty `nlp_engine_name`, `create_engine()`
fails with `InvalidConfiguration` (the `ValueError` of source lines 74-78);
when the configuration attribute was never assigned — reachable by
supplying a falsy-but-not-`None` source such as the inline `{}` —
`create_engine()` raises `AttributeError` instead. The provider state `st`
is arbitrary, in particular the registry `st.nlp_engines` and every engine
constructor in it: the result does not depend on them, so no registry
lookup or engine construction can have taken place. -/
theorem create_engine_invalid_configuration (st : NlpEngineProvider)
    (conf : NlpConf)
    (hconf : st.nlp_configuration = some conf)
    (h : conf.truthy = false ∨ optListTruthy conf.get_models = false ∨
      optStrTruthy conf.get_engine_name = false) :
    create_engine st = Except.error (PyError.valueError illegal_conf_msg) := by
  have hcond : (conf.truthy && optListTruthy conf.get_models
      && optStrTruthy conf.get_engine_name) = false := by
    rcases h with h | h | h <;> simp [h]
  simp only [create_engine, hconf, hcond]
  rfl

/-- Witness for C2 at the empty configuration dict. -/
theorem create_engine_invalid_configuration_witness :
    create_engine { nlp_engines := [], nlp_configuration := some emptyNlpConf }
      = Except.error (PyError.valueError illegal_conf_msg) :=
  create_engine_invalid_configuration _ emptyNlpConf rfl (Or.inl rfl)

/-! ## Claim C1 -/

/-- Claim C1 (counterexample): a provider whose resolved configuration names
the engine `"foo"` — a name that is not a key of the (here empty)
availability-filtered registry — but has an empty `models` list. The claim
says `create_engine()` fails with `UnknownEngine`; the code fails with the
`InvalidConfiguration` error instead, because the validity check of lines
69-78 runs before the registry-membership check of lines 80-84. The last
conjunct shows the two messages differ, so this is not the UnknownEngine
failure. The provider is reachable: the first conjunct builds it through
`__init__` with the configuration supplied inline. -/
theorem unknown_engine_preempted_by_validation :
    providerInit [] Option.none Option.none (some confFoo)
        (ConfFile.missing "default.yaml")
      = Except.ok { nlp_engines := [], nlp_configuration := some confFoo } ∧
    create_engine { nlp_engines := [], nlp_configuration := some confFoo }
      = Except.error (PyError.valueError illegal_conf_msg) ∧
    illegal_conf_msg ≠ unknown_engine_msg "foo" :=
  ⟨rfl, rfl, by decide⟩

/-- Claim C1 (corrected, amended): for every provider whose resolved
configuration passes the basic validity check (a non-empty dict with a
non-empty `models` list and a non-empty engine name) and names an engine
that is not a key of the availability-filtered registry, `create_engine()`
fails with `UnknownEngine`; the message names the requested engine and ends
with the optional-packages hint. The provider state is arbitrary: the
result does not depend on any constructor stored in the registry, so the
missing engine is never constructed. -/
theorem create_engine_unknown_engine (st : NlpEngineProvider) (conf : NlpConf)
    (name : String)
    (hconf : st.nlp_configuration = some conf)
    (hname : conf.nlp_engine_name = some (some name))
    (hnm : name ≠ "")
    (hmodels : optListTruthy conf.get_models = true)
    (hlookup : dictGet st.nlp_engines name = Option.none) :
    create_engine st = Except.error (PyError.valueError (unknown_engine_msg name)) ∧
    unknown_engine_msg name =
      "NLP engine \x27" ++ name ++
        "\x27 is not available. Make sure you have all required packages installed" := by
  refine ⟨?_, rfl⟩
  have htr : conf.truthy = true := by simp [NlpConf.truthy, hname]
  have hst : optStrTruthy conf.get_engine_name = true := by
    simp [NlpConf.get_engine_name, hname, optStrTruthy, str_isEmpty_false hnm]
  have hfound : ((some name).bind fun s => dictGet st.nlp_engines s)
      = Option.none := by
    simp [hlookup]
  simp only [create_engine, hconf, htr, hmodels, hst, hname, hfound]
  rfl

/-- Witness for C1 (amended): registry containing only `"spacy"`, valid
configuration naming `"stanza"`. -/
theorem create_engine_unknown_engine_witness :
    create_engine { nlp_engines := [("spacy", mkOkEngine "spacy")],
                    nlp_configuration := some (validConf "stanza") }
      = Except.error (PyError.valueError (unknown_engine_msg "stanza")) ∧
    unknown_engine_msg "stanza" =
      "NLP engine \x27" ++ "stanza" ++
        "\x27 is not available. Make sure you have all required packages installed" :=
  create_engine_unknown_engine _ (validConf "stanza") "stanza" rfl rfl
    (by decide) rfl rfl

/-! ## Claim C3 -/

/-- Claim C3 (counterexample): both configuration sources are supplied — a
file path (to an existing file, content irrelevant) and an inline
configuration object, here the empty dict `{}` — yet `__init__` does not
fail with `ConflictingConfigurationSources`: because the inline dict is
falsy, `if conf_file and nlp_configuration` (line 51) is false, the file is
read, and construction succeeds. -/
theorem conflicting_sources_not_raised_for_empty_inline :
    providerInit [mkOkEngine "spacy"] Option.none
        (some (ConfFile.present "conf.yaml" (validConf "spacy")))
        (some emptyNlpConf) (ConfFile.missing "default.yaml")
      = Except.ok { nlp_engines := [("spacy", mkOkEngine "spacy")],
                    nlp_configuration := some (validConf "spacy") } ∧
    (Except.ok { nlp_engines := [("spacy", mkOkEngine "spacy")],
                 nlp_configuration := some (validConf "spacy") }
        : Except PyError NlpEngineProvider)
      ≠ Except.error (PyError.valueError conflicting_sources_msg) :=
  ⟨rfl, fun h => nomatch h⟩

/-- Claim C3 (corrected, amended): supplying both an inline configuration
object and a configuration file path fails with
`ConflictingConfigurationSources` whenever both are truthy (non-empty path,
non-empty dict), regardless of the content of either source and before any
file I/O: the file argument `cf` is arbitrary — in particular it may point
to a missing file and its content is never read. -/
theorem providerInit_conflicting_sources (b : List EngineClass)
    (es : Option (List EngineClass)) (cf : ConfFile) (conf : NlpConf)
    (d : ConfFile)
    (hp : cf.path ≠ "") (hc : conf.truthy = true) :
    providerInit b es (some cf) (some conf) d
      = Except.error (PyError.valueError conflicting_sources_msg) := by
  have h1 : cf.path.isEmpty = false := str_isEmpty_false hp
  simp [providerInit, h1, hc]

/-- Witness for C3 (amended): an existing file plus a truthy inline
configuration. -/
theorem providerInit_conflicting_sources_witness :
    providerInit [] Option.none
        (some (ConfFile.present "conf.yaml" (validConf "spacy")))
        (some (validConf "stanza")) (ConfFile.missing "d")
      = Except.error (PyError.valueError conflicting_sources_msg) :=
  providerInit_conflicting_sources [] Option.none
    (ConfFile.present "conf.yaml" (validConf "spacy")) (validConf "stanza")
    (ConfFile.missing "d") (by decide) rfl

/-! ## Claim C4 -/

/-- The registry stored by `__init__` is always the availability-filtered
dict built from the resolved candidate list. -/
theorem providerInit_registry (b : List EngineClass)
    (es : Option (List EngineClass)) (cf : Option ConfFile)
    (nc : Option NlpConf) (d : ConfFile) (st : NlpEngineProvider)
    (hok : providerInit b es cf nc d = Except.ok st) :
    st.nlp_engines = buildRegistry (resolveEngineList b es) := by
  simp only [providerInit] at hok
  split at hok
  · exact Except.noConfusion hok
  · injection hok with h1
    rw [← h1]

/-- Claim C4 (counterexample): a provider constructed with the empty
candidate engine sequence. The claim says the resulting registry maps
exactly the names of the (zero) available candidates, i.e. is empty; but
the empty tuple is falsy, so `__init__` substitutes the built-in default
families (line 41-42) and the registry ends up containing `"spacy"`, which
is no candidate's name. -/
theorem registry_nonempty_for_empty_candidates :
    providerInit [mkOkEngine "spacy"] (some []) Option.none Option.none
        (ConfFile.missing "d")
      = Except.ok { nlp_engines := [("spacy", mkOkEngine "spacy")],
                    nlp_configuration := some default_nlp_configuration } ∧
    dictGet [("spacy", mkOkEngine "spacy")] "spacy" = some (mkOkEngine "spacy") :=
  ⟨rfl, rfl⟩

/-- Claim C4 (corrected, amended): for every non-empty candidate engine
sequence supplied at provider construction, the resulting registry maps a
name to an engine class exactly when that class is the last available
candidate of that name in the sequence — so exactly the names of available
candidates are present, unavailable candidates contribute no entry, and
when two available candidates share a name the later one wins. -/
theorem provider_registry_contents (b : List EngineClass)
    (es : List EngineClass) (cf : Option ConfFile) (nc : Option NlpConf)
    (d : ConfFile) (st : NlpEngineProvider) (n : String)
    (hne : es ≠ [])
    (hok : providerInit b (some es) cf nc d = Except.ok st) :
    dictGet st.nlp_engines n =
      (es.filter fun e => e.is_available && e.engine_name == n).getLast? := by
  have h1 := providerInit_registry b (some es) cf nc d st hok
  have hres : resolveEngineList b (some es) = es := by
    simp [resolveEngineList, list_isEmpty_false hne]
  rw [h1, hres, buildRegistry_lookup]

/-- Witness for C4 (amended): two available candidates named `"a"` around an
unavailable `"b"`; lookup of `"a"` returns the later candidate. -/
theorem provider_registry_contents_witness :
    dictGet (buildRegistry [mkOkEngine "a", mkUnavailableEngine "b",
        mkLoadFailEngine "a" (PyError.keyError "k")]) "a"
      = ([mkOkEngine "a", mkUnavailableEngine "b",
          mkLoadFailEngine "a" (PyError.keyError "k")].filter
            fun e => e.is_available && e.engine_name == "a").getLast? :=
  provider_registry_contents []
    [mkOkEngine "a", mkUnavailableEngine "b",
      mkLoadFailEngine "a" (PyError.keyError "k")]
    Option.none Option.none (ConfFile.missing "d")
    { nlp_engines := buildRegistry [mkOkEngine "a", mkUnavailableEngine "b",
        mkLoadFailEngine "a" (PyError.keyError "k")],
      nlp_configuration := some default_nlp_configuration }
    "a" (by simp) rfl

/-! ## Claim C5 -/

/-- Claim C5 (confirmed): when neither an inline configuration nor a file
path is supplied, `__init__` resolves the configuration by reading the file
at the conventional default path (`default_path_file` stands for the
file-system entry at `Path(Path(__file__).parent.parent, "conf",
"default.yaml")`, the value of `_get_full_conf_path`); and whenever the
resolved path — default (second conjunct) or caller-supplied (third
conjunct) — does not exist, the resulting configuration equals the
hard-coded default and construction raises no error. A caller-supplied
path is truthy (`p ≠ ""`; the empty path would be `Path(".")`, which
exists). -/
theorem provider_default_conf_resolution (b : List EngineClass)
    (es : Option (List EngineClass)) (dflt : ConfFile) (p : String) :
    providerInit b es Option.none Option.none dflt
      = Except.ok { nlp_engines := buildRegistry (resolveEngineList b es),
                    nlp_configuration := some (read_nlp_conf dflt) } ∧
    read_nlp_conf (ConfFile.missing p) = default_nlp_configuration ∧
    (p ≠ "" →
      providerInit b es (some (ConfFile.missing p)) Option.none dflt
        = Except.ok { nlp_engines := buildRegistry (resolveEngineList b es),
                      nlp_configuration := some default_nlp_configuration }) := by
  refine ⟨?_, rfl, fun hp => ?_⟩
  · simp [providerInit]
  · have h1 : (ConfFile.missing p).path.isEmpty = false := str_isEmpty_false hp
    simp [providerInit, h1, read_nlp_conf]

/-- Witness for C5 at a concrete missing caller-supplied path. -/
theorem provider_default_conf_resolution_witness :
    providerInit [] Option.none (some (ConfFile.missing "missing.yaml"))
        Option.none (ConfFile.missing "default.yaml")
      = Except.ok { nlp_engines := buildRegistry (resolveEngineList [] Option.none),
                    nlp_configuration := some default_nlp_configuration } :=
  (provider_default_conf_resolution [] Option.none (ConfFile.missing "default.yaml")
    "missing.yaml").2.2 (by decide)

/-! ## Claim C6 -/

/-- Claim C6 (counterexample): an engine whose `load()` raises a `KeyError`.
The first conjunct shows the engine construction succeeds and the instance's
load phase raises `KeyError("boom")`; the second shows `create_engine()`
surfaces `ValueError("Wrong NLP engine configuration")` instead, because the
`except KeyError` of lines 106-107 wraps the whole try block, `engine.load()`
included; the third shows the surfaced error is not the raised one, so the
load failure was not propagated unchanged. -/
theorem load_keyerror_not_propagated :
    (mkLoadFailEngine "spacy" (PyError.keyError "boom")).construct [modelEn]
        NerArg.none
      = Except.ok { engine_name := "spacy", models := [modelEn],
                    ner_model_configuration := NerArg.none,
                    load_error := some (PyError.keyError "boom") } ∧
    create_engine (providerWith
        [("spacy", mkLoadFailEngine "spacy" (PyError.keyError "boom"))]
        (validConf "spacy"))
      = Except.error (PyError.valueError wrong_conf_msg) ∧
    PyError.valueError wrong_conf_msg ≠ PyError.keyError "boom" :=
  ⟨rfl, rfl, by decide⟩

/-- Claim C6 (corrected, amended): for every engine whose load phase raises
an error, `create_engine()` propagates that error to the caller unchanged —
unless the error is a `KeyError`, which the `except KeyError` handler of
lines 106-107 replaces with `ValueError("Wrong NLP engine configuration")`.
The conclusion's match covers both halves: a non-`KeyError` load failure is
returned as-is, a `KeyError` load failure is replaced. -/
theorem create_engine_load_error_propagation (st : NlpEngineProvider)
    (conf : NlpConf) (name : String) (ms : List ModelSpec)
    (cls : EngineClass) (eng : EngineInstance) (e : PyError)
    (hconf : st.nlp_configuration = some conf)
    (hname : conf.nlp_engine_name = some (some name))
    (hnm : name ≠ "")
    (hmodels : conf.models = some (some ms))
    (hms : ms ≠ [])
    (hcls : dictGet st.nlp_engines name = some cls)
    (hcons : cls.construct ms (nerArgOf conf) = Except.ok eng)
    (hload : eng.load_error = some e) :
    create_engine st = Except.error
      (match e with
        | PyError.keyError _ => PyError.valueError wrong_conf_msg
        | x => x) := by
  have htr : conf.truthy = true := by simp [NlpConf.truthy, hname]
  have hml : optListTruthy conf.get_models = true := by
    simp [NlpConf.get_models, hmodels, optListTruthy, list_isEmpty_false hms]
  have hst : optStrTruthy conf.get_engine_name = true := by
    simp [NlpConf.get_engine_name, hname, optStrTruthy, str_isEmpty_false hnm]
  have hfound : ((some name).bind fun s => dictGet st.nlp_engines s)
      = some cls := by
    simp [hcls]
  simp only [create_engine, hconf, htr, hml, hst, hname, hfound, hmodels,
    hcons, hload]
  cases e <;> rfl

/-- Witness for C6 (amended): a load failure of a non-`KeyError` kind
(`OSError`) is propagated unchanged. -/
theorem create_engine_load_error_propagation_witness :
    create_engine (providerWith
        [("spacy", mkLoadFailEngine "spacy"
          (PyError.otherError "OSError" "model en_core_web_lg not found"))]
        (validConf "spacy"))
      = Except.error (PyError.otherError "OSError"
          "model en_core_web_lg not found") :=
  create_engine_load_error_propagation
    (providerWith
      [("spacy", mkLoadFailEngine "spacy"
        (PyError.otherError "OSError" "model en_core_web_lg not found"))]
      (validConf "spacy"))
    (validConf "spacy") "spacy" [modelEn]
    (mkLoadFailEngine "spacy"
      (PyError.otherError "OSError" "model en_core_web_lg not found"))
    { engine_name := "spacy", models := [modelEn],
      ner_model_configuration := NerArg.none,
      load_error := some (PyError.otherError "OSError"
        "model en_core_web_lg not found") }
    (PyError.otherError "OSError" "model en_core_web_lg not found")
    rfl rfl (by decide) rfl (by simp) rfl rfl rfl

/-! ## Claim C7 -/

/-- Claim C7 (confirmed): an internal mapping-lookup failure (`KeyError`)
arising during the final assembly step — here, raised by the engine
constructor inside the try block of lines 85-105 — is surfaced to the
caller as the `InvalidConfiguration` error `ValueError("Wrong NLP engine
configuration")` (lines 106-107), not as the raw `KeyError`: the second
conjunct shows the surfaced error differs from the internal one. -/
theorem create_engine_normalizes_internal_keyerror (st : NlpEngineProvider)
    (conf : NlpConf) (name : String) (ms : List ModelSpec)
    (cls : EngineClass) (m : String)
    (hconf : st.nlp_configuration = some conf)
    (hname : conf.nlp_engine_name = some (some name))
    (hnm : name ≠ "")
    (hmodels : conf.models = some (some ms))
    (hms : ms ≠ [])
    (hcls : dictGet st.nlp_engines name = some cls)
    (hcons : cls.construct ms (nerArgOf conf)
      = Except.error (PyError.keyError m)) :
    create_engine st = Except.error (PyError.valueError wrong_conf_msg) ∧
    PyError.valueError wrong_conf_msg ≠ PyError.keyError m := by
  refine ⟨?_, fun h => PyError.noConfusion h⟩
  have htr : conf.truthy = true := by simp [NlpConf.truthy, hname]
  have hml : optListTruthy conf.get_models = true := by
    simp [NlpConf.get_models, hmodels, optListTruthy, list_isEmpty_false hms]
  have hst : optStrTruthy conf.get_engine_name = true := by
    simp [NlpConf.get_engine_name, hname, optStrTruthy, str_isEmpty_false hnm]
  have hfound : ((some name).bind fun s => dictGet st.nlp_engines s)
      = some cls := by
    simp [hcls]
  simp only [create_engine, hconf, htr, hml, hst, hname, hfound, hmodels, hcons]
  rfl

/-- Witness for C7: a constructor raising `KeyError("sub_config")`. -/
theorem create_engine_normalizes_internal_keyerror_witness :
    create_engine (providerWith [("spacy", keyErrorCtorEngine)]
        (validConf "spacy"))
      = Except.error (PyError.valueError wrong_conf_msg) ∧
    PyError.valueError wrong_conf_msg ≠ PyError.keyError "sub_config" :=
  create_engine_normalizes_internal_keyerror
    (providerWith [("spacy", keyErrorCtorEngine)] (validConf "spacy"))
    (validConf "spacy") "spacy"
    [modelEn] keyErrorCtorEngine "sub_config" rfl rfl (by decide) rfl
    (by simp) rfl rfl

/-! ## Claim C8 -/

/-- Claim C8 (counterexample): a configuration whose
`ner_model_configuration` key is present but holds the empty mapping `{}`.
Because `{}` is falsy, the `if ner_model_configuration:` of line 92 skips
the parse, and the engine constructor receives the raw empty mapping — not
a parsed NER-model-configuration entity (fourth conjunct) and not an absent
value (third conjunct). The provider is reachable through `__init__`
(first conjunct). -/
theorem ner_configuration_empty_not_parsed :
    providerInit [mkOkEngine "spacy"] Option.none Option.none
        (some confNerEmpty) (ConfFile.missing "d")
      = Except.ok (providerWith [("spacy", mkOkEngine "spacy")] confNerEmpty) ∧
    create_engine (providerWith [("spacy", mkOkEngine "spacy")] confNerEmpty)
      = Except.ok { engine_name := "spacy", models := [modelEn],
                    ner_model_configuration := NerArg.raw [],
                    load_error := Option.none } ∧
    NerArg.raw [] ≠ NerArg.none ∧
    NerArg.raw [] ≠ NerArg.parsed (NerModelConfiguration.from_dict []) :=
  ⟨rfl, rfl, by decide, by decide⟩

/-- Claim C8 (corrected, amended): for every valid configuration handed to
a registered engine class (modelled by the recording class `mkOkEngine`,
whose instances store the constructor arguments), the constructor receives
the configuration's model list together with `nerArgOf conf`: the parsed
NER-model-configuration entity when the field is present with a non-empty
value (second conjunct), and the absent value `None` when the field is
absent (third conjunct); a present-but-falsy value is passed raw and
unparsed. -/
theorem create_engine_ner_argument (conf : NlpConf) (name : String)
    (ms : List ModelSpec)
    (hname : conf.nlp_engine_name = some (some name))
    (hnm : name ≠ "")
    (hmodels : conf.models = some (some ms))
    (hms : ms ≠ []) :
    create_engine (providerWith [(name, mkOkEngine name)] conf)
      = Except.ok { engine_name := name, models := ms,
                    ner_model_configuration := nerArgOf conf,
                    load_error := Option.none } ∧
    (∀ d : NerDict, conf.ner_model_configuration = some (some d) → d ≠ [] →
      nerArgOf conf = NerArg.parsed (NerModelConfiguration.from_dict d)) ∧
    (conf.get_ner = Option.none → nerArgOf conf = NerArg.none) := by
  refine ⟨?_, fun d hd hdne => ?_, fun h => ?_⟩
  · have htr : conf.truthy = true := by simp [NlpConf.truthy, hname]
    have hml : optListTruthy conf.get_models = true := by
      simp [NlpConf.get_models, hmodels, optListTruthy, list_isEmpty_false hms]
    have hst : optStrTruthy conf.get_engine_name = true := by
      simp [NlpConf.get_engine_name, hname, optStrTruthy, str_isEmpty_false hnm]
    have hfound : ((some name).bind
        fun s => dictGet [(name, mkOkEngine name)] s)
        = some (mkOkEngine name) := by
      simp [dictGet]
    simp only [create_engine, providerWith, htr, hml, hst, hname, hfound,
      hmodels]
    rfl
  · simp [nerArgOf, NlpConf.get_ner, hd, list_isEmpty_false hdne]
  · simp [nerArgOf, h]

/-- Witness for C8 (amended) at a configuration with a non-empty
`ner_model_configuration`. -/
theorem create_engine_ner_argument_witness :
    create_engine (providerWith [("spacy", mkOkEngine "spacy")] confNerFull)
      = Except.ok { engine_name := "spacy", models := [modelEn],
                    ner_model_configuration := nerArgOf confNerFull,
                    load_error := Option.none } :=
  (create_engine_ner_argument confNerFull "spacy" [modelEn] rfl (by decide)
    rfl (by simp)).1

/-! ## Claim C9 -/

/-- Claim C9 (confirmed): resolving the same inline configuration object
twice — even with different candidate-engine arguments and different states
of the default configuration file — yields providers whose resolved
configurations are equal field-by-field. (A truthy inline object is adopted
verbatim by line 57; the resolution is a pure function of the inline
object.) -/
theorem provider_inline_resolution_deterministic
    (b1 b2 : List EngineClass) (es1 es2 : Option (List EngineClass))
    (c : NlpConf) (d1 d2 : ConfFile) (st1 st2 : NlpEngineProvider)
    (h1 : providerInit b1 es1 Option.none (some c) d1 = Except.ok st1)
    (h2 : providerInit b2 es2 Option.none (some c) d2 = Except.ok st2) :
    st1.nlp_configuration = st2.nlp_configuration := by
  simp only [providerInit, Bool.false_and] at h1 h2
  rw [if_neg (show ¬(false = true) from by decide)] at h1 h2
  injection h1 with e1
  injection h2 with e2
  rw [← e1, ← e2]

/-- Witness for C9: the same inline configuration through two different
providers. -/
theorem provider_inline_resolution_deterministic_witness :
    (providerWith [] (validConf "spacy")).nlp_configuration
      = (providerWith (buildRegistry [mkOkEngine "spacy"])
          (validConf "spacy")).nlp_configuration :=
  provider_inline_resolution_deterministic [] [mkOkEngine "spacy"]
    Option.none Option.none (validConf "spacy")
    (ConfFile.missing "a") (ConfFile.missing "b")
    (providerWith [] (validConf "spacy"))
    (providerWith (buildRegistry [mkOkEngine "spacy"]) (validConf "spacy"))
    rfl rfl

/-! ## Claim C10 -/

/-- Claim C10 (confirmed): a provider constructed with the empty candidate
engine sequence behaves exactly as if no candidate sequence had been
supplied (`if not nlp_engines` of line 41 treats the falsy empty tuple like
`None`): the two `__init__` calls are equal, and the registry is populated
from the three built-in default engine families — `sp`, `stz`, `tr` stand
for `SpacyNlpEngine`, `StanzaNlpEngine`, `TransformersNlpEngine` — filtered
by availability, rather than being left empty. -/
theorem provider_empty_engine_list_defaults (sp stz tr : EngineClass)
    (cf : Option ConfFile) (nc : Option NlpConf) (d : ConfFile)
    (st : NlpEngineProvider)
    (_hsp : sp.engine_name = "spacy") (_hstz : stz.engine_name = "stanza")
    (_htr : tr.engine_name = "transformers")
    (hok : providerInit [sp, stz, tr] (some []) cf nc d = Except.ok st) :
    providerInit [sp, stz, tr] (some []) cf nc d
      = providerInit [sp, stz, tr] Option.none cf nc d ∧
    st.nlp_engines = buildRegistry [sp, stz, tr] := by
  constructor
  · rfl
  · exact providerInit_registry [sp, stz, tr] (some []) cf nc d st hok

/-- Witness for C10: spacy available, stanza and transformers not
installed. -/
theorem provider_empty_engine_list_defaults_witness :
    providerInit sampleBuiltins (some []) Option.none Option.none
        (ConfFile.missing "d")
      = providerInit sampleBuiltins Option.none Option.none Option.none
          (ConfFile.missing "d") ∧
    ({ nlp_engines := buildRegistry sampleBuiltins,
       nlp_configuration := some default_nlp_configuration
       : NlpEngineProvider }).nlp_engines = buildRegistry sampleBuiltins :=
  provider_empty_engine_list_defaults (mkOkEngine "spacy")
    (mkUnavailableEngine "stanza") (mkUnavailableEngine "transformers")
    Option.none Option.none (ConfFile.missing "d")
    { nlp_engines := buildRegistry sampleBuiltins,
      nlp_configuration := some default_nlp_configuration }
    rfl rfl rfl rfl
